import Mathlib

/-
Verification of the graphiti-context-hub memory adapter.

Shallow embedding of src/lib/backends/forgetful.py and
src/lib/backends/graphiti.py.  The external MCP call mechanism
(invoke(tool_name, args) -> result) is modelled as a record of functions
from request-argument structures to raw-response structures; backend
identifiers that Python passes through str() are modelled as strings (so
str() on them is the identity); timestamps are abstract (Nat), with the
round trip datetime.fromisoformat / isoformat modelled as the identity and
datetime.now() passed in explicitly as a parameter named now.
-/

namespace ContextHub

/-- Timestamps are abstract instants; only their defaulting and ordering matter here. -/
abbrev Timestamp := Nat

/-- Modelled from the spec: the metadata mapping carried by `Memory` and
`Relationship` (src/lib/models.py is not in the source tree).  The spec's
string-keyed mapping is modelled as a record whose fields are the union of
the keys either backend ever stores, each defaulted exactly as a
`dict.get(key, default)` read of an absent key would produce. -/
structure Metadata where
  title : String := ""
  keywords : List String := []
  tags : List String := []
  linked_memory_ids : List String := []
  summary : String := ""
  name : String := ""
  source : String := ""
  episode_type : String := ""
  created_at : String := ""
deriving Repr, DecidableEq

/-- Modelled from the spec: canonical `Memory` value object (§3, §6). -/
structure Memory where
  id : String
  content : String
  created_at : Timestamp
  importance : Option Int := none
  metadata : Metadata := {}
deriving Repr, DecidableEq

/-- Modelled from the spec: canonical `Relationship` value object (§3, §6). -/
structure Relationship where
  source : String
  target : String
  relation_type : String
  metadata : Metadata := {}
deriving Repr, DecidableEq

/-- Modelled from the spec: canonical `KnowledgeGraph` snapshot (§3, §6). -/
structure KnowledgeGraph where
  nodes : List Memory
  edges : List Relationship
deriving Repr, DecidableEq

/-- Modelled from the spec: `OperationInfo` discovery record (§3).  The field
`example` is a Lean keyword, hence `example_` here. -/
structure OperationInfo where
  name : String
  description : String
  params : List (String × String)
  example_ : String
deriving Repr, DecidableEq

/-- Python exceptions raised by the backends. -/
inductive PyError where
  | valueError (msg : String)
  | runtimeError (msg : String)
deriving Repr, DecidableEq

/-- Result shape of get_schema: the dict {description, params}. -/
structure Schema where
  description : String
  params : List (String × String)
deriving Repr, DecidableEq

/-- The open metadata bag (**metadata) accepted by save; absent keys are none. -/
structure SaveMetadata where
  title : Option String := none
  importance : Option Int := none
  keywords : Option (List String) := none
  tags : Option (List String) := none
  context : Option String := none
  source : Option String := none
  source_description : Option String := none
deriving Repr

/-! ## Forgetful backend: raw service shapes (forgetful.py) -/

/-- One record of a Forgetful memory result; absent dict keys are none. -/
structure RawForgetfulMem where
  id : Option String := none
  content : Option String := none
  created_at : Option Timestamp := none
  importance : Option Int := none
  title : Option String := none
  keywords : Option (List String) := none
  tags : Option (List String) := none
  linked_memory_ids : Option (List String) := none
deriving Repr, DecidableEq

/-- Raw result of query_memory / list_memories. -/
structure ForgetfulResult where
  memories : Option (List RawForgetfulMem) := none
deriving Repr, DecidableEq

/-- One record of list_projects. -/
structure ProjectRec where
  name : Option String := none
  id : Option Int := none
deriving Repr, DecidableEq

/-- Raw result of list_projects. -/
structure ListProjectsResult where
  projects : Option (List ProjectRec) := none
deriving Repr, DecidableEq

/-- Arguments of create_project. -/
structure CreateProjectArgs where
  name : String
  description : String
deriving Repr, DecidableEq

/-- Raw result of create_project. -/
structure CreateProjectResult where
  project_id : Option Int := none
  id : Option Int := none
deriving Repr, DecidableEq

/-- Arguments of create_memory. -/
structure CreateMemoryArgs where
  title : String
  content : String
  importance : Int
  project_ids : List Int
  keywords : List String
  tags : List String
  context : String
deriving Repr, DecidableEq

/-- Raw result of create_memory. -/
structure CreateMemoryResult where
  memory_id : Option String := none
  id : Option String := none
deriving Repr, DecidableEq

/-- Arguments of query_memory. -/
structure QueryMemoryArgs where
  query : String
  project_ids : Option (List Int)
  k : Nat
  include_links : Bool
deriving Repr, DecidableEq

/-- Arguments of list_memories. -/
structure ListMemoriesArgs where
  project_ids : Option (List Int)
  limit : Nat
  sort_by : String
  sort_order : String
deriving Repr, DecidableEq

/-- The external Forgetful MCP service: one function per tool call made via
mcp__forgetful__execute_forgetful_tool. -/
structure ForgetfulService where
  query_memory : QueryMemoryArgs → ForgetfulResult
  list_memories : ListMemoriesArgs → ForgetfulResult
  list_projects : ListProjectsResult
  create_project : CreateProjectArgs → CreateProjectResult
  create_memory : CreateMemoryArgs → CreateMemoryResult

/-- The in-memory _project_cache (dict group_id -> project_id); a key present
with a None value is an entry whose payload is none. -/
abbrev Cache := List (String × Option Int)

/-- Python truthiness of `[project_id] if project_id else None`: both None and 0
are falsy. -/
def pidIfTruthy (pid : Option Int) : Option (List Int) :=
  match pid with
  | some p => if p = 0 then none else some [p]
  | none => none

/-- Python truthiness of `[project_id] if project_id else []` (used by save). -/
def pidIfTruthyList (pid : Option Int) : List Int :=
  match pid with
  | some p => if p = 0 then [] else [p]
  | none => []

namespace ForgetfulBackend

/-- Outcome of one _group_to_project_id call, instrumented with the number of
list_projects and create_project calls it issued. -/
structure ResolveResult where
  projectId : Option Int
  cache : Cache
  listProjectCalls : Nat
  createProjectCalls : Nat
deriving Repr

/-- ForgetfulBackend._group_to_project_id (forgetful.py:165-195): check the
cache; on miss list projects and match by name; on no match create a project;
cache whatever id was obtained. -/
def group_to_project_id (svc : ForgetfulService) (cache : Cache) (group_id : String) :
    ResolveResult :=
  match cache.lookup group_id with
  | some pid => ⟨pid, cache, 0, 0⟩
  | none =>
    let result := svc.list_projects
    match (result.projects.getD []).find? (fun p => p.name == some group_id) with
    | some p => ⟨p.id, (group_id, p.id) :: cache, 1, 0⟩
    | none =>
      let create_result :=
        svc.create_project ⟨group_id, "Auto-created from group_id: " ++ group_id⟩
      let pid := create_result.project_id.orElse (fun _ => create_result.id)
      ⟨pid, (group_id, pid) :: cache, 1, 1⟩

/-- One record of ForgetfulBackend._parse_forgetful_memories (forgetful.py:197-215). -/
def parse_forgetful_mem (now : Timestamp) (mem : RawForgetfulMem) : Memory :=
  { id := mem.id.getD ""
    content := mem.content.getD ""
    created_at := mem.created_at.getD now
    importance := mem.importance
    metadata :=
      { title := mem.title.getD ""
        keywords := mem.keywords.getD []
        tags := mem.tags.getD []
        linked_memory_ids := mem.linked_memory_ids.getD [] } }

/-- ForgetfulBackend._parse_forgetful_memories (forgetful.py:197-215). -/
def parse_forgetful_memories (now : Timestamp) (result : ForgetfulResult) : List Memory :=
  (result.memories.getD []).map (parse_forgetful_mem now)

/-- ForgetfulBackend.query (forgetful.py:15-26). -/
def query (svc : ForgetfulService) (cache : Cache) (now : Timestamp)
    (query : String) (group_id : String) (limit : Nat) : List Memory × Cache :=
  let r := group_to_project_id svc cache group_id
  let result := svc.query_memory
    { query := query, project_ids := pidIfTruthy r.projectId, k := limit, include_links := true }
  (parse_forgetful_memories now result, r.cache)

/-- ForgetfulBackend.search_facts (forgetful.py:28-49). -/
def search_facts (svc : ForgetfulService) (cache : Cache) (now : Timestamp)
    (q : String) (group_id : String) (limit : Nat) : List Relationship × Cache :=
  let (memories, cache') := query svc cache now q group_id limit
  (memories.flatMap (fun memory =>
      memory.metadata.linked_memory_ids.map (fun linked_id =>
        { source := memory.id, target := linked_id, relation_type := "linked_to",
          metadata := {} })),
   cache')

/-- ForgetfulBackend.save (forgetful.py:51-65). -/
def save (svc : ForgetfulService) (cache : Cache) (content : String) (group_id : String)
    (metadata : SaveMetadata) : String × Cache :=
  let r := group_to_project_id svc cache group_id
  let result := svc.create_memory
    { title := metadata.title.getD "Untitled"
      content := content
      importance := metadata.importance.getD 5
      project_ids := pidIfTruthyList r.projectId
      keywords := metadata.keywords.getD []
      tags := metadata.tags.getD []
      context := metadata.context.getD "" }
  ((result.memory_id.orElse (fun _ => result.id)).getD "unknown", r.cache)

/-- ForgetfulBackend.list_recent (forgetful.py:108-119). -/
def list_recent (svc : ForgetfulService) (cache : Cache) (now : Timestamp)
    (group_id : String) (limit : Nat) : List Memory × Cache :=
  let r := group_to_project_id svc cache group_id
  let result := svc.list_memories
    { project_ids := pidIfTruthy r.projectId, limit := limit,
      sort_by := "created_at", sort_order := "desc" }
  (parse_forgetful_memories now result, r.cache)

/-- Result of the inner for-loop of ForgetfulBackend.explore over one batch of
query results: the updated visited set, nodes, edges, and the entries appended
to the work queue. -/
structure StepResult where
  visited : List String
  nodes : List Memory
  edges : List Relationship
  newQueue : List (String × Nat)
deriving Repr

/-- The inner `for memory in memories` loop of ForgetfulBackend.explore
(forgetful.py:85-104): skip visited memories; otherwise mark visited, append
the node, emit one linked_to edge per linked id, and enqueue each linked id at
depth current_depth + 1 when current_depth < depth. -/
def processMemories (depth current_depth : Nat) :
    List Memory → List String → List Memory → List Relationship → List (String × Nat) →
    StepResult
  | [], visited, nodes, edges, newQueue => ⟨visited, nodes, edges, newQueue⟩
  | memory :: rest, visited, nodes, edges, newQueue =>
    if memory.id ∈ visited then
      processMemories depth current_depth rest visited nodes edges newQueue
    else
      let linked_ids := memory.metadata.linked_memory_ids
      let newEdges := linked_ids.map (fun linked_id =>
        { source := memory.id, target := linked_id, relation_type := "linked_to",
          metadata := {} : Relationship })
      let enqueued :=
        if current_depth < depth then linked_ids.map (fun linked_id => (linked_id, current_depth + 1))
        else []
      processMemories depth current_depth rest (memory.id :: visited) (nodes ++ [memory])
        (edges ++ newEdges) (newQueue ++ enqueued)

/-- The `while queue` loop of ForgetfulBackend.explore (forgetful.py:76-104),
with an explicit fuel parameter: none means the fuel ran out before the loop
finished.  queryFn stands for self.query with the namespace fixed (its
behaviour is determined by the external service); the code calls it with a
fixed fanout of 5. -/
def exploreLoop (queryFn : String → Nat → List Memory) (depth : Nat) :
    Nat → List (String × Nat) → List String → List Memory → List Relationship →
    Option KnowledgeGraph
  | _, [], _, nodes, edges => some ⟨nodes, edges⟩
  | 0, _ :: _, _, _, _ => none
  | fuel + 1, (query_text, current_depth) :: rest, visited, nodes, edges =>
    if current_depth > depth then some ⟨nodes, edges⟩
    else
      let step := processMemories depth current_depth (queryFn query_text 5) visited nodes edges []
      exploreLoop queryFn depth fuel (rest ++ step.newQueue) step.visited step.nodes step.edges

/-- ForgetfulBackend.explore (forgetful.py:67-106): breadth-first traversal
seeded with (starting_point, 0). -/
def explore (queryFn : String → Nat → List Memory) (starting_point : String)
    (depth : Nat) (fuel : Nat) : Option KnowledgeGraph :=
  exploreLoop queryFn depth fuel [(starting_point, 0)] [] [] []

/-- ForgetfulBackend.get_capabilities (forgetful.py:123-148): the discover call's
result is ignored and a static list is returned. -/
def get_capabilities : List OperationInfo :=
  [ { name := "query"
      description := "Search for memories by semantic similarity"
      params := [("query", "str"), ("limit", "int")]
      example_ := "memory.query(\"auth patterns\", limit=10)" },
    { name := "save"
      description := "Save new memory"
      params := [("content", "str"), ("title", "str"), ("importance", "int (1-10)")]
      example_ := "memory.save(\"Decision: JWT auth\", title=\"Auth\", importance=9)" },
    { name := "list_recent"
      description := "List recent memories"
      params := [("limit", "int")]
      example_ := "memory.list_recent(limit=20)" } ]

/-- ForgetfulBackend.get_schema (forgetful.py:150-156): returns a placeholder
schema for any operation name; there is no raise path, hence always ok. -/
def get_schema (operation : String) : Except PyError Schema :=
  .ok { description := "Schema for " ++ operation, params := [] }

/-- ForgetfulBackend.get_examples (forgetful.py:158-161): returns a placeholder
example for any operation name; there is no raise path, hence always ok. -/
def get_examples (operation : String) : Except PyError (List String) :=
  .ok ["memory." ++ operation ++ "(...)"]

end ForgetfulBackend

/-! ## Graphiti backend: raw service shapes (graphiti.py) -/

/-- One node record of a search_nodes result. -/
structure RawGraphitiNode where
  uuid : Option String := none
  name : Option String := none
  created_at : Option Timestamp := none
  summary : Option String := none
deriving Repr, DecidableEq

/-- Arguments of search_nodes. -/
structure SearchNodesArgs where
  query : String
  group_ids : List String
  max_nodes : Nat
deriving Repr, DecidableEq

/-- Raw result of search_nodes. -/
structure SearchNodesResult where
  nodes : Option (List RawGraphitiNode) := none
deriving Repr, DecidableEq

/-- One fact record of a search_memory_facts result. -/
structure RawGraphitiFact where
  source_node_uuid : Option String := none
  target_node_uuid : Option String := none
  fact : Option String := none
  created_at : Option String := none
deriving Repr, DecidableEq

/-- Arguments of search_memory_facts. -/
structure SearchFactsArgs where
  query : String
  group_ids : List String
  max_facts : Nat
deriving Repr, DecidableEq

/-- Raw result of search_memory_facts. -/
structure SearchFactsResult where
  facts : Option (List RawGraphitiFact) := none
deriving Repr, DecidableEq

/-- Arguments of add_memory. -/
structure AddMemoryArgs where
  name : String
  episode_body : String
  group_id : String
  source : String
  source_description : String
deriving Repr, DecidableEq

/-- Raw result of add_memory. -/
structure AddMemoryResult where
  episode_id : Option String := none
  uuid : Option String := none
deriving Repr, DecidableEq

/-- Arguments of get_episodes. -/
structure GetEpisodesArgs where
  group_ids : List String
  max_episodes : Nat
deriving Repr, DecidableEq

/-- One episode record of a get_episodes result. -/
structure RawEpisode where
  uuid : Option String := none
  content : Option String := none
  name : Option String := none
  source : Option String := none
  created_at : Option Timestamp := none
deriving Repr, DecidableEq

/-- Raw result of get_episodes. -/
structure GetEpisodesResult where
  episodes : Option (List RawEpisode) := none
deriving Repr, DecidableEq

/-- The external Graphiti MCP service; mcpAvailable models whether the
mcp__graphiti__* names resolve in the execution context. -/
structure GraphitiService where
  mcpAvailable : Bool
  search_nodes : SearchNodesArgs → SearchNodesResult
  search_memory_facts : SearchFactsArgs → SearchFactsResult
  add_memory : AddMemoryArgs → AddMemoryResult
  get_episodes : GetEpisodesArgs → GetEpisodesResult

namespace GraphitiBackend

/-- One entry of GraphitiBackend.OPERATIONS. -/
structure OpDetails where
  description : String
  params : List (String × String)
  example_ : String
deriving Repr, DecidableEq

/-- GraphitiBackend.OPERATIONS (graphiti.py:13-39), in dict insertion order. -/
def OPERATIONS : List (String × OpDetails) :=
  [ ("query",
      { description := "Search for memories by semantic similarity"
        params := [("query", "str"), ("limit", "int")]
        example_ := "memory.query(\"auth patterns\", limit=10)" }),
    ("search_facts",
      { description := "Search for relationships between entities"
        params := [("query", "str"), ("limit", "int")]
        example_ := "memory.search_facts(\"authentication flow\", limit=20)" }),
    ("save",
      { description := "Save new episode to knowledge graph"
        params := [("content", "str"), ("title", "str (optional)")]
        example_ := "memory.save(\"Decision: Using JWT for auth\", title=\"Auth Decision\")" }),
    ("explore",
      { description := "Deep traversal from a starting memory"
        params := [("starting_point", "str"), ("depth", "int")]
        example_ := "memory.explore(\"authentication\", depth=2)" }),
    ("list_recent",
      { description := "List recent memories"
        params := [("limit", "int")]
        example_ := "memory.list_recent(limit=20)" }) ]

/-- GraphitiBackend._check_mcp_available (graphiti.py:41-62): RuntimeError when
the MCP tool names do not resolve (message abbreviated to its first line). -/
def check_mcp_available (svc : GraphitiService) : Except PyError Unit :=
  if svc.mcpAvailable then .ok ()
  else .error (.runtimeError
    "Graphiti MCP tools are not available in this execution context.")

/-- One record of GraphitiBackend._parse_nodes_to_memories (graphiti.py:152-164). -/
def parse_node (now : Timestamp) (node : RawGraphitiNode) : Memory :=
  { id := node.uuid.getD ""
    content := node.name.getD ""
    created_at := node.created_at.getD now
    metadata := { summary := node.summary.getD "" } }

/-- GraphitiBackend._parse_nodes_to_memories (graphiti.py:152-164). -/
def parse_nodes_to_memories (now : Timestamp) (result : SearchNodesResult) : List Memory :=
  (result.nodes.getD []).map (parse_node now)

/-- GraphitiBackend._parse_facts_to_relationships (graphiti.py:166-178). -/
def parse_facts_to_relationships (result : SearchFactsResult) : List Relationship :=
  (result.facts.getD []).map (fun fact =>
    { source := fact.source_node_uuid.getD ""
      target := fact.target_node_uuid.getD ""
      relation_type := fact.fact.getD ""
      metadata := { created_at := fact.created_at.getD "" } })

/-- One record of GraphitiBackend._parse_episodes_to_memories (graphiti.py:180-198). -/
def parse_episode (now : Timestamp) (episode : RawEpisode) : Memory :=
  { id := episode.uuid.getD ""
    content := (episode.content.orElse (fun _ => episode.name)).getD ""
    created_at := episode.created_at.getD now
    metadata :=
      { name := episode.name.getD ""
        source := episode.source.getD ""
        episode_type := "episode" } }

/-- GraphitiBackend._parse_episodes_to_memories (graphiti.py:180-198). -/
def parse_episodes_to_memories (now : Timestamp) (result : GetEpisodesResult) : List Memory :=
  (result.episodes.getD []).map (parse_episode now)

/-- GraphitiBackend.query (graphiti.py:64-75). -/
def query (svc : GraphitiService) (now : Timestamp) (query group_id : String)
    (limit : Nat) : Except PyError (List Memory) :=
  match check_mcp_available svc with
  | .error e => .error e
  | .ok _ =>
    .ok (parse_nodes_to_memories now
      (svc.search_nodes { query := query, group_ids := [group_id], max_nodes := limit }))

/-- GraphitiBackend.search_facts (graphiti.py:77-87). -/
def search_facts (svc : GraphitiService) (query group_id : String)
    (limit : Nat) : Except PyError (List Relationship) :=
  match check_mcp_available svc with
  | .error e => .error e
  | .ok _ =>
    .ok (parse_facts_to_relationships
      (svc.search_memory_facts { query := query, group_ids := [group_id], max_facts := limit }))

/-- GraphitiBackend.save (graphiti.py:89-102). -/
def save (svc : GraphitiService) (content group_id : String)
    (metadata : SaveMetadata) : Except PyError String :=
  match check_mcp_available svc with
  | .error e => .error e
  | .ok _ =>
    let result := svc.add_memory
      { name := metadata.title.getD "Untitled"
        episode_body := content
        group_id := group_id
        source := metadata.source.getD "context-hub"
        source_description := metadata.source_description.getD "Saved via context-hub-plugin" }
    .ok ((result.episode_id.orElse (fun _ => result.uuid)).getD "unknown")

/-- GraphitiBackend.explore (graphiti.py:104-110): the depth parameter is
accepted but unused; the result is query at fanout 10 plus search_facts at
fanout 20. -/
def explore (svc : GraphitiService) (now : Timestamp) (starting_point group_id : String)
    (depth : Nat) : Except PyError KnowledgeGraph :=
  match query svc now starting_point group_id 10 with
  | .error e => .error e
  | .ok nodes =>
    match search_facts svc starting_point group_id 20 with
    | .error e => .error e
    | .ok edges => .ok ⟨nodes, edges⟩

/-- GraphitiBackend.list_recent (graphiti.py:112-121). -/
def list_recent (svc : GraphitiService) (now : Timestamp) (group_id : String)
    (limit : Nat) : Except PyError (List Memory) :=
  match check_mcp_available svc with
  | .error e => .error e
  | .ok _ =>
    .ok (parse_episodes_to_memories now
      (svc.get_episodes { group_ids := [group_id], max_episodes := limit }))

/-- GraphitiBackend.get_capabilities (graphiti.py:125-130). -/
def get_capabilities : List OperationInfo :=
  OPERATIONS.map (fun od =>
    { name := od.1, description := od.2.description, params := od.2.params,
      example_ := od.2.example_ })

/-- GraphitiBackend.get_schema (graphiti.py:132-141): ValueError for an
operation name outside OPERATIONS. -/
def get_schema (operation : String) : Except PyError Schema :=
  match OPERATIONS.lookup operation with
  | none => .error (.valueError ("Unknown operation: " ++ operation))
  | some op_info => .ok { description := op_info.description, params := op_info.params }

/-- GraphitiBackend.get_examples (graphiti.py:143-148): ValueError for an
operation name outside OPERATIONS. -/
def get_examples (operation : String) : Except PyError (List String) :=
  match OPERATIONS.lookup operation with
  | none => .error (.valueError ("Unknown operation: " ++ operation))
  | some op_info => .ok [op_info.example_]

end GraphitiBackend

/-! ## Argument shapes actually passed to the external services -/

/-- The query_memory arguments ForgetfulBackend.query passes (forgetful.py:19-24). -/
def ForgetfulBackend.query_args (svc : ForgetfulService) (cache : Cache)
    (q group_id : String) (limit : Nat) : QueryMemoryArgs :=
  { query := q
    project_ids := pidIfTruthy (ForgetfulBackend.group_to_project_id svc cache group_id).projectId
    k := limit
    include_links := true }

/-- The list_memories arguments ForgetfulBackend.list_recent passes (forgetful.py:112-117). -/
def ForgetfulBackend.list_recent_args (svc : ForgetfulService) (cache : Cache)
    (group_id : String) (limit : Nat) : ListMemoriesArgs :=
  { project_ids := pidIfTruthy (ForgetfulBackend.group_to_project_id svc cache group_id).projectId
    limit := limit
    sort_by := "created_at"
    sort_order := "desc" }

/-- The create_memory arguments ForgetfulBackend.save passes (forgetful.py:55-63). -/
def ForgetfulBackend.save_args (svc : ForgetfulService) (cache : Cache)
    (content group_id : String) (metadata : SaveMetadata) : CreateMemoryArgs :=
  { title := metadata.title.getD "Untitled"
    content := content
    importance := metadata.importance.getD 5
    project_ids := pidIfTruthyList (ForgetfulBackend.group_to_project_id svc cache group_id).projectId
    keywords := metadata.keywords.getD []
    tags := metadata.tags.getD []
    context := metadata.context.getD "" }

/-- The add_memory arguments GraphitiBackend.save passes (graphiti.py:93-99). -/
def GraphitiBackend.save_args (content group_id : String) (metadata : SaveMetadata) :
    AddMemoryArgs :=
  { name := metadata.title.getD "Untitled"
    episode_body := content
    group_id := group_id
    source := metadata.source.getD "context-hub"
    source_description := metadata.source_description.getD "Saved via context-hub-plugin" }

/-! ## Concrete fixtures used by witnesses and counterexamples -/

/-- Fixture: memory A of the two-cycle A references B, B references A. -/
def memA : Memory :=
  { id := "A", content := "alpha", created_at := 0,
    metadata := { linked_memory_ids := ["B"] } }

/-- Fixture: memory B of the two-cycle. -/
def memB : Memory :=
  { id := "B", content := "beta", created_at := 0,
    metadata := { linked_memory_ids := ["A"] } }

/-- Fixture query function resolving each id of the two-cycle to its memory. -/
def qCycle : String → Nat → List Memory :=
  fun s _ => if s = "A" then [memA] else if s = "B" then [memB] else []

/-- Fixture: a single seed memory with one outgoing reference. -/
def memSeed : Memory :=
  { id := "seed-1", content := "seed", created_at := 3,
    metadata := { linked_memory_ids := ["ref-1"] } }

/-- Fixture query function returning the seed memory for every query. -/
def qSeed : String → Nat → List Memory := fun _ _ => [memSeed]

/-- Fixture: root of the reference graph root to a and b, a to c, b to nothing. -/
def memRoot : Memory :=
  { id := "root", content := "root memory", created_at := 0,
    metadata := { linked_memory_ids := ["a", "b"] } }

/-- Fixture: memory a, referencing c. -/
def memFixA : Memory :=
  { id := "a", content := "memory a", created_at := 0,
    metadata := { linked_memory_ids := ["c"] } }

/-- Fixture: memory b, referencing nothing. -/
def memFixB : Memory := { id := "b", content := "memory b", created_at := 0 }

/-- Fixture: memory c, referencing nothing. -/
def memFixC : Memory := { id := "c", content := "memory c", created_at := 0 }

/-- Fixture query function resolving each identifier-shaped query of the
root fixture graph to exactly the referenced memory. -/
def qFixture : String → Nat → List Memory :=
  fun s _ =>
    if s = "root" then [memRoot]
    else if s = "a" then [memFixA]
    else if s = "b" then [memFixB]
    else if s = "c" then [memFixC]
    else []

/-- The KnowledgeGraph that exploring the root fixture at depth 2 produces. -/
def fixtureGraph : KnowledgeGraph :=
  { nodes := [memRoot, memFixA, memFixB, memFixC]
    edges :=
      [ { source := "root", target := "a", relation_type := "linked_to" },
        { source := "root", target := "b", relation_type := "linked_to" },
        { source := "a", target := "c", relation_type := "linked_to" } ] }

/-- Fixture Forgetful service whose every response is empty. -/
def emptyForgetfulService : ForgetfulService :=
  { query_memory := fun _ => {}
    list_memories := fun _ => {}
    list_projects := {}
    create_project := fun _ => {}
    create_memory := fun _ => {} }

/-- Fixture Forgetful service with no existing projects whose create_project
assigns project id 7. -/
def svcFreshProject : ForgetfulService :=
  { emptyForgetfulService with
    list_projects := { projects := some [] }
    create_project := fun _ => { project_id := some 7 } }

/-- Fixture raw memory record with the earlier timestamp. -/
def rawMemEarly : RawForgetfulMem := { id := some "m1", created_at := some 1 }

/-- Fixture raw memory record with the later timestamp. -/
def rawMemLate : RawForgetfulMem := { id := some "m2", created_at := some 2 }

/-- Fixture Forgetful service whose list_memories response has two records in
ascending created_at order, whatever limit was requested. -/
def svcTwoListed : ForgetfulService :=
  { emptyForgetfulService with
    list_memories := fun _ => { memories := some [rawMemEarly, rawMemLate] } }

/-- Fixture Forgetful service whose query_memory response has two records,
whatever k was requested. -/
def svcTwoQueried : ForgetfulService :=
  { emptyForgetfulService with
    query_memory := fun _ => { memories := some [rawMemEarly, rawMemLate] } }

/-- Fixture Graphiti service: tools available, every response empty. -/
def emptyGraphitiService : GraphitiService :=
  { mcpAvailable := true
    search_nodes := fun _ => {}
    search_memory_facts := fun _ => {}
    add_memory := fun _ => {}
    get_episodes := fun _ => {} }

/-! ## Unfolding lemmas for the explorer -/

/-- The explore loop on an empty queue returns the graph built so far, for any
remaining fuel. -/
theorem exploreLoop_nil (queryFn : String → Nat → List Memory) (depth fuel : Nat)
    (visited : List String) (nodes : List Memory) (edges : List Relationship) :
    ForgetfulBackend.exploreLoop queryFn depth fuel [] visited nodes edges =
      some ⟨nodes, edges⟩ := by
  cases fuel <;> rfl

/-- One iteration of the explore loop on a non-empty queue. -/
theorem exploreLoop_cons (queryFn : String → Nat → List Memory) (depth fuel : Nat)
    (query_text : String) (current_depth : Nat) (rest : List (String × Nat))
    (visited : List String) (nodes : List Memory) (edges : List Relationship) :
    ForgetfulBackend.exploreLoop queryFn depth (fuel + 1)
        ((query_text, current_depth) :: rest) visited nodes edges =
      if current_depth > depth then some ⟨nodes, edges⟩
      else
        let step := ForgetfulBackend.processMemories depth current_depth
          (queryFn query_text 5) visited nodes edges []
        ForgetfulBackend.exploreLoop queryFn depth fuel
          (rest ++ step.newQueue) step.visited step.nodes step.edges := rfl

/-- Unfolding: the inner loop on an exhausted batch. -/
theorem processMemories_nil (depth current_depth : Nat) (visited : List String)
    (nodes : List Memory) (edges : List Relationship) (newQueue : List (String × Nat)) :
    ForgetfulBackend.processMemories depth current_depth [] visited nodes edges newQueue =
      ⟨visited, nodes, edges, newQueue⟩ := rfl

/-- Unfolding: the inner loop on one more memory of the batch. -/
theorem processMemories_cons (depth current_depth : Nat) (memory : Memory)
    (rest : List Memory) (visited : List String) (nodes : List Memory)
    (edges : List Relationship) (newQueue : List (String × Nat)) :
    ForgetfulBackend.processMemories depth current_depth (memory :: rest)
        visited nodes edges newQueue =
      if memory.id ∈ visited then
        ForgetfulBackend.processMemories depth current_depth rest visited nodes edges newQueue
      else
        ForgetfulBackend.processMemories depth current_depth rest (memory.id :: visited)
          (nodes ++ [memory])
          (edges ++ memory.metadata.linked_memory_ids.map (fun linked_id =>
            { source := memory.id, target := linked_id, relation_type := "linked_to",
              metadata := {} : Relationship }))
          (newQueue ++
            if current_depth < depth then
              memory.metadata.linked_memory_ids.map (fun linked_id => (linked_id, current_depth + 1))
            else []) := rfl

/-- The inner loop only appends to the nodes list, and every appended node came
from the processed batch. -/
theorem processMemories_nodes (depth current_depth : Nat) (ms : List Memory) :
    ∀ visited nodes edges newQueue,
      ∃ extra,
        (ForgetfulBackend.processMemories depth current_depth ms visited nodes edges
            newQueue).nodes = nodes ++ extra ∧
        ∀ m ∈ extra, m ∈ ms := by
  induction ms with
  | nil =>
    intro visited nodes edges newQueue
    exact ⟨[], by simp [processMemories_nil], by simp⟩
  | cons m rest ih =>
    intro visited nodes edges newQueue
    rw [processMemories_cons]
    by_cases hv : m.id ∈ visited
    · rw [if_pos hv]
      obtain ⟨extra, h1, h2⟩ := ih visited nodes edges newQueue
      exact ⟨extra, h1, fun x hx => List.mem_cons_of_mem _ (h2 x hx)⟩
    · rw [if_neg hv]
      obtain ⟨extra, h1, h2⟩ := ih (m.id :: visited) (nodes ++ [m]) _ _
      refine ⟨m :: extra, ?_, ?_⟩
      · rw [h1]; simp
      · intro x hx
        rcases List.mem_cons.mp hx with h | h
        · exact h ▸ List.mem_cons_self _ _
        · exact List.mem_cons_of_mem _ (h2 x h)

/-- Every edge produced by the inner loop either was already there or has its
source among the ids of the resulting nodes and relation type linked_to. -/
theorem processMemories_edges (depth current_depth : Nat) (ms : List Memory) :
    ∀ visited nodes edges newQueue,
      ∀ rel ∈ (ForgetfulBackend.processMemories depth current_depth ms visited nodes edges
          newQueue).edges,
        rel ∈ edges ∨
          (rel.source ∈ (ForgetfulBackend.processMemories depth current_depth ms visited nodes
              edges newQueue).nodes.map Memory.id ∧
           rel.relation_type = "linked_to") := by
  induction ms with
  | nil =>
    intro visited nodes edges newQueue rel hrel
    rw [processMemories_nil] at hrel
    exact Or.inl hrel
  | cons m rest ih =>
    intro visited nodes edges newQueue rel hrel
    rw [processMemories_cons] at hrel ⊢
    by_cases hv : m.id ∈ visited
    · rw [if_pos hv] at hrel ⊢
      exact ih visited nodes edges newQueue rel hrel
    · rw [if_neg hv] at hrel ⊢
      rcases ih _ _ _ _ rel hrel with h | h
      · rcases List.mem_append.mp h with h0 | h0
        · exact Or.inl h0
        · refine Or.inr ⟨?_, ?_⟩
          · obtain ⟨linked_id, _, hEq⟩ := List.mem_map.mp h0
            obtain ⟨extra, hn, _⟩ := processMemories_nodes depth current_depth rest
              (m.id :: visited) (nodes ++ [m]) _ _
            rw [hn, ← hEq]
            simp
          · obtain ⟨linked_id, _, hEq⟩ := List.mem_map.mp h0
            rw [← hEq]
      · exact Or.inr h

/-- When current_depth is not below depth, the inner loop enqueues nothing. -/
theorem processMemories_newQueue (depth current_depth : Nat)
    (h : ¬ current_depth < depth) (ms : List Memory) :
    ∀ visited nodes edges newQueue,
      (ForgetfulBackend.processMemories depth current_depth ms visited nodes edges
          newQueue).newQueue = newQueue := by
  induction ms with
  | nil =>
    intro visited nodes edges newQueue
    rw [processMemories_nil]
  | cons m rest ih =>
    intro visited nodes edges newQueue
    rw [processMemories_cons]
    by_cases hv : m.id ∈ visited
    · rw [if_pos hv]; exact ih _ _ _ _
    · rw [if_neg hv, if_neg h, List.append_nil]; exact ih _ _ _ _

/-- C1: over a cyclic reference graph (A lists B, B lists A) with a query that
resolves each id to its memory, explore at any depth at least 2 terminates
(the loop finishes within 3 iterations, for any fuel at least 3), appends no
memory id twice, and produces exactly 2 nodes. -/
theorem C1_explore_cycle_terminates (A B : Memory) (queryFn : String → Nat → List Memory)
    (hne : A.id ≠ B.id)
    (hA : A.metadata.linked_memory_ids = [B.id])
    (hB : B.metadata.linked_memory_ids = [A.id])
    (hqA : queryFn A.id 5 = [A]) (hqB : queryFn B.id 5 = [B])
    (depth : Nat) (hd : 2 ≤ depth) (fuel : Nat) (hf : 3 ≤ fuel) :
    ∃ g, ForgetfulBackend.explore queryFn A.id depth fuel = some g ∧
      g.nodes = [A, B] ∧ g.nodes.length = 2 ∧ (g.nodes.map Memory.id).Nodup := by
  obtain ⟨f, rfl⟩ : ∃ f, fuel = f + 3 := ⟨fuel - 3, by omega⟩
  have h0 : ¬ (0 > depth) := by omega
  have h1 : ¬ (1 > depth) := by omega
  have h2 : ¬ (2 > depth) := by omega
  have h0lt : 0 < depth := by omega
  have h1lt : 1 < depth := by omega
  have hne2 : B.id ≠ A.id := fun h => hne h.symm
  refine ⟨⟨[A, B],
    [ { source := A.id, target := B.id, relation_type := "linked_to" },
      { source := B.id, target := A.id, relation_type := "linked_to" } ]⟩, ?_, rfl, rfl, ?_⟩
  · simp [ForgetfulBackend.explore, show f + 3 = (f + 2) + 1 from rfl,
      show f + 2 = (f + 1) + 1 from rfl, exploreLoop_cons, exploreLoop_nil,
      processMemories_cons, processMemories_nil, hqA, hqB, hA, hB,
      h0, h1, h2, h0lt, h1lt, hne, hne2]
  · simp [hne]

/-- Witness for C1 at the concrete two-cycle fixture, depth 2 and fuel 3. -/
theorem C1_witness :
    ∃ g, ForgetfulBackend.explore qCycle memA.id 2 3 = some g ∧
      g.nodes = [memA, memB] ∧ g.nodes.length = 2 ∧ (g.nodes.map Memory.id).Nodup :=
  C1_explore_cycle_terminates memA memB qCycle (by decide) rfl rfl rfl rfl
    2 (by decide) 3 (by decide)

/-- C2: at depth 0, explore returns only memories from the single initial
query, every edge originates at one of those nodes, and the initial batch
enqueues nothing for a second hop. -/
theorem C2_explore_depth_zero_no_second_hop (queryFn : String → Nat → List Memory)
    (starting_point : String) (fuel : Nat) (hfuel : 1 ≤ fuel) :
    ∃ g, ForgetfulBackend.explore queryFn starting_point 0 fuel = some g ∧
      (∀ m ∈ g.nodes, m ∈ queryFn starting_point 5) ∧
      (∀ rel ∈ g.edges, rel.source ∈ g.nodes.map Memory.id) ∧
      (ForgetfulBackend.processMemories 0 0 (queryFn starting_point 5)
          [] [] [] []).newQueue = [] := by
  obtain ⟨f, rfl⟩ : ∃ f, fuel = f + 1 := ⟨fuel - 1, by omega⟩
  have hq : (ForgetfulBackend.processMemories 0 0 (queryFn starting_point 5)
      [] [] [] []).newQueue = [] :=
    processMemories_newQueue 0 0 (by omega) _ _ _ _ _
  refine ⟨⟨(ForgetfulBackend.processMemories 0 0 (queryFn starting_point 5) [] [] [] []).nodes,
    (ForgetfulBackend.processMemories 0 0 (queryFn starting_point 5) [] [] [] []).edges⟩,
    ?_, ?_, ?_, hq⟩
  · rw [ForgetfulBackend.explore, exploreLoop_cons, if_neg (by omega : ¬ (0 > 0))]
    show ForgetfulBackend.exploreLoop queryFn 0 f
      ([] ++ (ForgetfulBackend.processMemories 0 0 (queryFn starting_point 5)
        [] [] [] []).newQueue) _ _ _ = _
    rw [hq, List.append_nil, exploreLoop_nil]
  · intro m hm
    obtain ⟨extra, h1, h2⟩ := processMemories_nodes 0 0 (queryFn starting_point 5) [] [] [] []
    rw [h1] at hm
    exact h2 m (by simpa using hm)
  · intro rel hrel
    rcases processMemories_edges 0 0 (queryFn starting_point 5) [] [] [] [] rel hrel with
      h | h
    · exact absurd h (List.not_mem_nil rel)
    · exact h.1

/-- Witness for C2 at a concrete query function and fuel 1. -/
theorem C2_witness :
    ∃ g, ForgetfulBackend.explore qSeed "seed" 0 1 = some g ∧
      (∀ m ∈ g.nodes, m ∈ qSeed "seed" 5) ∧
      (∀ rel ∈ g.edges, rel.source ∈ g.nodes.map Memory.id) ∧
      (ForgetfulBackend.processMemories 0 0 (qSeed "seed" 5) [] [] [] []).newQueue = [] :=
  C2_explore_depth_zero_no_second_hop qSeed "seed" 1 (by decide)

/-- C3: exploring the fixture graph root to a and b, a to c, b to nothing, at
depth 2, under a query that resolves each identifier-shaped query to exactly
the referenced memory, yields exactly the nodes root, a, b, c and exactly the
edges root to a, root to b, a to c. -/
theorem C3_explore_fixture_depth_two :
    ForgetfulBackend.explore qFixture "root" 2 10 = some fixtureGraph ∧
    fixtureGraph.nodes.map Memory.id = ["root", "a", "b", "c"] ∧
    fixtureGraph.edges.length = 3 := ⟨rfl, rfl, rfl⟩

/-- C9: GraphitiBackend.explore ignores its depth argument: any two depths give
identical results, and the result is always the composition of query at fixed
fanout 10 with search_facts at fixed fanout 20. -/
theorem C9_graphiti_explore_ignores_depth (svc : GraphitiService) (now : Timestamp)
    (starting_point group_id : String) (d₁ d₂ : Nat)
    (nodes : List Memory) (edges : List Relationship)
    (hq : GraphitiBackend.query svc now starting_point group_id 10 = .ok nodes)
    (hf : GraphitiBackend.search_facts svc starting_point group_id 20 = .ok edges) :
    GraphitiBackend.explore svc now starting_point group_id d₁ =
      GraphitiBackend.explore svc now starting_point group_id d₂ ∧
    GraphitiBackend.explore svc now starting_point group_id d₁ = .ok ⟨nodes, edges⟩ := by
  refine ⟨rfl, ?_⟩
  rw [GraphitiBackend.explore, hq, hf]

/-- ForgetfulBackend.query restated: it parses the raw response of query_memory
called with query_args, and returns the resolver's updated cache. -/
theorem ForgetfulBackend.query_eq (svc : ForgetfulService) (cache : Cache) (now : Timestamp)
    (q group_id : String) (limit : Nat) :
    ForgetfulBackend.query svc cache now q group_id limit =
      (ForgetfulBackend.parse_forgetful_memories now
        (svc.query_memory (ForgetfulBackend.query_args svc cache q group_id limit)),
       (ForgetfulBackend.group_to_project_id svc cache group_id).cache) := rfl

/-- ForgetfulBackend.list_recent restated: it parses the raw response of
list_memories called with list_recent_args. -/
theorem ForgetfulBackend.list_recent_eq (svc : ForgetfulService) (cache : Cache)
    (now : Timestamp) (group_id : String) (limit : Nat) :
    ForgetfulBackend.list_recent svc cache now group_id limit =
      (ForgetfulBackend.parse_forgetful_memories now
        (svc.list_memories (ForgetfulBackend.list_recent_args svc cache group_id limit)),
       (ForgetfulBackend.group_to_project_id svc cache group_id).cache) := rfl

/-- ForgetfulBackend.save restated: the returned id is memory_id, else id, else
the literal unknown, from the create_memory response for save_args. -/
theorem ForgetfulBackend.forgetful_save_eq (svc : ForgetfulService) (cache : Cache)
    (content group_id : String) (metadata : SaveMetadata) :
    ForgetfulBackend.save svc cache content group_id metadata =
      (((svc.create_memory (ForgetfulBackend.save_args svc cache content group_id
          metadata)).memory_id.orElse
        (fun _ => (svc.create_memory (ForgetfulBackend.save_args svc cache content group_id
          metadata)).id)).getD "unknown",
       (ForgetfulBackend.group_to_project_id svc cache group_id).cache) := rfl

/-- GraphitiBackend.save restated under tool availability. -/
theorem GraphitiBackend.graphiti_save_eq (svc : GraphitiService) (content group_id : String)
    (metadata : SaveMetadata) (hav : svc.mcpAvailable = true) :
    GraphitiBackend.save svc content group_id metadata =
      .ok (((svc.add_memory (GraphitiBackend.save_args content group_id
          metadata)).episode_id.orElse
        (fun _ => (svc.add_memory (GraphitiBackend.save_args content group_id
          metadata)).uuid)).getD "unknown") := by
  simp [GraphitiBackend.save, GraphitiBackend.check_mcp_available, hav,
    GraphitiBackend.save_args]

/-- C4 counterexample: "bogus" is not a recognized operation of
ForgetfulBackend, yet get_schema and get_examples return placeholder values
instead of failing. -/
theorem C4_counterexample_forgetful_schema_returns :
    "bogus" ∉ GraphitiBackend.OPERATIONS.map Prod.fst ∧
    "bogus" ∉ ForgetfulBackend.get_capabilities.map OperationInfo.name ∧
    ForgetfulBackend.get_schema "bogus" =
      .ok { description := "Schema for bogus", params := [] } ∧
    ForgetfulBackend.get_examples "bogus" = .ok ["memory.bogus(...)"] :=
  ⟨by decide, by decide, rfl, rfl⟩

/-- C4 amended: for an operation name outside OPERATIONS, GraphitiBackend's
get_schema and get_examples fail with ValueError, while ForgetfulBackend's
never fail and return placeholder values for any name. -/
theorem C4_amended_unknown_operation (operation : String)
    (hop : GraphitiBackend.OPERATIONS.lookup operation = none) :
    GraphitiBackend.get_schema operation =
      .error (.valueError ("Unknown operation: " ++ operation)) ∧
    GraphitiBackend.get_examples operation =
      .error (.valueError ("Unknown operation: " ++ operation)) ∧
    ForgetfulBackend.get_schema operation =
      .ok { description := "Schema for " ++ operation, params := [] } ∧
    ForgetfulBackend.get_examples operation =
      .ok ["memory." ++ operation ++ "(...)"] := by
  refine ⟨?_, ?_, rfl, rfl⟩
  · simp [GraphitiBackend.get_schema, hop]
  · simp [GraphitiBackend.get_examples, hop]

/-- Witness for C4 at the concrete unrecognized name does_not_exist. -/
theorem C4_witness :
    GraphitiBackend.get_schema "does_not_exist" =
      .error (.valueError ("Unknown operation: " ++ "does_not_exist")) ∧
    GraphitiBackend.get_examples "does_not_exist" =
      .error (.valueError ("Unknown operation: " ++ "does_not_exist")) ∧
    ForgetfulBackend.get_schema "does_not_exist" =
      .ok { description := "Schema for " ++ "does_not_exist", params := [] } ∧
    ForgetfulBackend.get_examples "does_not_exist" =
      .ok ["memory." ++ "does_not_exist" ++ "(...)"] :=
  C4_amended_unknown_operation "does_not_exist" (by decide)

/-- C5: for a namespace the cache has never seen, two successive resolutions
return the same project id, the second is a pure cache hit issuing no external
calls, and at most one create_project call is issued in total. -/
theorem C5_namespace_resolution_cached (svc : ForgetfulService) (cache : Cache)
    (group_id : String) (h : cache.lookup group_id = none) :
    (ForgetfulBackend.group_to_project_id svc
        (ForgetfulBackend.group_to_project_id svc cache group_id).cache group_id).projectId =
      (ForgetfulBackend.group_to_project_id svc cache group_id).projectId ∧
    (ForgetfulBackend.group_to_project_id svc
        (ForgetfulBackend.group_to_project_id svc cache group_id).cache group_id).cache =
      (ForgetfulBackend.group_to_project_id svc cache group_id).cache ∧
    (ForgetfulBackend.group_to_project_id svc
        (ForgetfulBackend.group_to_project_id svc cache group_id).cache group_id).listProjectCalls = 0 ∧
    (ForgetfulBackend.group_to_project_id svc
        (ForgetfulBackend.group_to_project_id svc cache group_id).cache group_id).createProjectCalls = 0 ∧
    (ForgetfulBackend.group_to_project_id svc cache group_id).createProjectCalls ≤ 1 := by
  simp only [ForgetfulBackend.group_to_project_id, h]
  rcases hfind : (svc.list_projects.projects.getD []).find?
      (fun p => p.name == some group_id) with _ | p
  · simp [hfind, List.lookup]
  · simp [hfind, List.lookup]

/-- Witness for C5 at a concrete service with no matching project and an empty
cache. -/
theorem C5_witness :
    (ForgetfulBackend.group_to_project_id svcFreshProject
        (ForgetfulBackend.group_to_project_id svcFreshProject [] "workspace").cache
        "workspace").projectId =
      (ForgetfulBackend.group_to_project_id svcFreshProject [] "workspace").projectId ∧
    (ForgetfulBackend.group_to_project_id svcFreshProject
        (ForgetfulBackend.group_to_project_id svcFreshProject [] "workspace").cache
        "workspace").cache =
      (ForgetfulBackend.group_to_project_id svcFreshProject [] "workspace").cache ∧
    (ForgetfulBackend.group_to_project_id svcFreshProject
        (ForgetfulBackend.group_to_project_id svcFreshProject [] "workspace").cache
        "workspace").listProjectCalls = 0 ∧
    (ForgetfulBackend.group_to_project_id svcFreshProject
        (ForgetfulBackend.group_to_project_id svcFreshProject [] "workspace").cache
        "workspace").createProjectCalls = 0 ∧
    (ForgetfulBackend.group_to_project_id svcFreshProject [] "workspace").createProjectCalls ≤ 1 :=
  C5_namespace_resolution_cached svcFreshProject [] "workspace" rfl

/-- C6: a raw record whose created_at field is absent parses (totally, no
exception path exists) to a Memory stamped with the construction-time
timestamp, and other absent optional fields parse to safe defaults, for both
backends' inbound parsers. -/
theorem C6_parse_missing_created_at_defaults (now : Timestamp)
    (rf : RawForgetfulMem) (rg : RawGraphitiNode)
    (hf : rf.created_at = none) (hg : rg.created_at = none) :
    ∃ mf, ForgetfulBackend.parse_forgetful_memories now { memories := some [rf] } = [mf] ∧
      mf.created_at = now ∧
      (rf.id = none → mf.id = "") ∧
      (rf.content = none → mf.content = "") ∧
      (rf.title = none → mf.metadata.title = "") ∧
      (rf.keywords = none → mf.metadata.keywords = []) ∧
      (rf.tags = none → mf.metadata.tags = []) ∧
      (rf.linked_memory_ids = none → mf.metadata.linked_memory_ids = []) ∧
      ∃ mg, GraphitiBackend.parse_nodes_to_memories now { nodes := some [rg] } = [mg] ∧
        mg.created_at = now ∧
        (rg.uuid = none → mg.id = "") ∧
        (rg.name = none → mg.content = "") ∧
        (rg.summary = none → mg.metadata.summary = "") := by
  refine ⟨ForgetfulBackend.parse_forgetful_mem now rf, rfl, ?_, ?_, ?_, ?_, ?_, ?_, ?_,
    GraphitiBackend.parse_node now rg, rfl, ?_, ?_, ?_, ?_⟩
  · simp [ForgetfulBackend.parse_forgetful_mem, hf]
  · intro hx; simp [ForgetfulBackend.parse_forgetful_mem, hx]
  · intro hx; simp [ForgetfulBackend.parse_forgetful_mem, hx]
  · intro hx; simp [ForgetfulBackend.parse_forgetful_mem, hx]
  · intro hx; simp [ForgetfulBackend.parse_forgetful_mem, hx]
  · intro hx; simp [ForgetfulBackend.parse_forgetful_mem, hx]
  · intro hx; simp [ForgetfulBackend.parse_forgetful_mem, hx]
  · simp [GraphitiBackend.parse_node, hg]
  · intro hx; simp [GraphitiBackend.parse_node, hx]
  · intro hx; simp [GraphitiBackend.parse_node, hx]
  · intro hx; simp [GraphitiBackend.parse_node, hx]

/-- Witness for C6 at entirely empty raw records. -/
theorem C6_witness :
    ∃ mf, ForgetfulBackend.parse_forgetful_memories 42
        { memories := some [({} : RawForgetfulMem)] } = [mf] ∧
      mf.created_at = 42 ∧
      (({} : RawForgetfulMem).id = none → mf.id = "") ∧
      (({} : RawForgetfulMem).content = none → mf.content = "") ∧
      (({} : RawForgetfulMem).title = none → mf.metadata.title = "") ∧
      (({} : RawForgetfulMem).keywords = none → mf.metadata.keywords = []) ∧
      (({} : RawForgetfulMem).tags = none → mf.metadata.tags = []) ∧
      (({} : RawForgetfulMem).linked_memory_ids = none → mf.metadata.linked_memory_ids = []) ∧
      ∃ mg, GraphitiBackend.parse_nodes_to_memories 42
          { nodes := some [({} : RawGraphitiNode)] } = [mg] ∧
        mg.created_at = 42 ∧
        (({} : RawGraphitiNode).uuid = none → mg.id = "") ∧
        (({} : RawGraphitiNode).name = none → mg.content = "") ∧
        (({} : RawGraphitiNode).summary = none → mg.metadata.summary = "") :=
  C6_parse_missing_created_at_defaults 42 {} {} rfl rfl

/-- Witness for C9 at a concrete service and depths 0 and 5. -/
theorem C9_witness :
    GraphitiBackend.explore emptyGraphitiService 0 "auth" "g" 0 =
      GraphitiBackend.explore emptyGraphitiService 0 "auth" "g" 5 ∧
    GraphitiBackend.explore emptyGraphitiService 0 "auth" "g" 0 = .ok ⟨[], []⟩ :=
  C9_graphiti_explore_ignores_depth emptyGraphitiService 0 "auth" "g" 0 5 [] [] rfl rfl

/-- C7 counterexample: a service whose list_memories response has 2 records in
ascending created_at order makes list_recent with limit 1 return 2 memories,
not at most 1, and not in descending order — the adapter neither truncates nor
sorts. -/
theorem C7_counterexample_list_recent_exceeds_limit :
    (ForgetfulBackend.list_recent svcTwoListed [] 0 "g" 1).1.length = 2 ∧
    ¬ ((ForgetfulBackend.list_recent svcTwoListed [] 0 "g" 1).1.length ≤ 1) ∧
    ¬ ((ForgetfulBackend.list_recent svcTwoListed [] 0 "g" 1).1.Pairwise
        (fun a b => b.created_at ≤ a.created_at)) :=
  ⟨by decide, by decide, by decide⟩

/-- C7 amended: both list_recent implementations forward the limit to the
service (with a created_at-descending sort request for Forgetful) and return
one parsed Memory per raw record in response order; the at-most-N,
newest-first property holds exactly when the service response has it. -/
theorem C7_amended_list_recent_delegates (svc : ForgetfulService) (cache : Cache)
    (now : Timestamp) (group_id : String) (N : Nat)
    (gsvc : GraphitiService) (hav : gsvc.mcpAvailable = true)
    (hflen : ((svc.list_memories (ForgetfulBackend.list_recent_args svc cache group_id
        N)).memories.getD []).length ≤ N)
    (hfsort : ((svc.list_memories (ForgetfulBackend.list_recent_args svc cache group_id
        N)).memories.getD []).Pairwise
        (fun a b => b.created_at.getD now ≤ a.created_at.getD now))
    (hglen :
      ((gsvc.get_episodes { group_ids := [group_id], max_episodes := N }).episodes.getD
        []).length ≤ N) :
    (ForgetfulBackend.list_recent svc cache now group_id N).1 =
      ForgetfulBackend.parse_forgetful_memories now
        (svc.list_memories (ForgetfulBackend.list_recent_args svc cache group_id N)) ∧
    (ForgetfulBackend.list_recent_args svc cache group_id N).limit = N ∧
    (ForgetfulBackend.list_recent_args svc cache group_id N).sort_by = "created_at" ∧
    (ForgetfulBackend.list_recent_args svc cache group_id N).sort_order = "desc" ∧
    (ForgetfulBackend.list_recent svc cache now group_id N).1.length ≤ N ∧
    (ForgetfulBackend.list_recent svc cache now group_id N).1.Pairwise
      (fun a b => b.created_at ≤ a.created_at) ∧
    GraphitiBackend.list_recent gsvc now group_id N =
      .ok (GraphitiBackend.parse_episodes_to_memories now
        (gsvc.get_episodes { group_ids := [group_id], max_episodes := N })) ∧
    (GraphitiBackend.parse_episodes_to_memories now
        (gsvc.get_episodes { group_ids := [group_id], max_episodes := N })).length ≤ N := by
  refine ⟨rfl, rfl, rfl, rfl, ?_, ?_, ?_, ?_⟩
  · rw [ForgetfulBackend.list_recent_eq]
    simpa [ForgetfulBackend.parse_forgetful_memories] using hflen
  · rw [ForgetfulBackend.list_recent_eq]
    exact List.Pairwise.map _ (fun a b h => h) hfsort
  · simp [GraphitiBackend.list_recent, GraphitiBackend.check_mcp_available, hav]
  · simpa [GraphitiBackend.parse_episodes_to_memories] using hglen

/-- Witness for C7 amended at concrete services with empty responses. -/
theorem C7_witness :
    (ForgetfulBackend.list_recent emptyForgetfulService [] 0 "g" 5).1 =
      ForgetfulBackend.parse_forgetful_memories 0
        (emptyForgetfulService.list_memories
          (ForgetfulBackend.list_recent_args emptyForgetfulService [] "g" 5)) ∧
    (ForgetfulBackend.list_recent_args emptyForgetfulService [] "g" 5).limit = 5 ∧
    (ForgetfulBackend.list_recent_args emptyForgetfulService [] "g" 5).sort_by = "created_at" ∧
    (ForgetfulBackend.list_recent_args emptyForgetfulService [] "g" 5).sort_order = "desc" ∧
    (ForgetfulBackend.list_recent emptyForgetfulService [] 0 "g" 5).1.length ≤ 5 ∧
    (ForgetfulBackend.list_recent emptyForgetfulService [] 0 "g" 5).1.Pairwise
      (fun a b => b.created_at ≤ a.created_at) ∧
    GraphitiBackend.list_recent emptyGraphitiService 0 "g" 5 =
      .ok (GraphitiBackend.parse_episodes_to_memories 0
        (emptyGraphitiService.get_episodes { group_ids := ["g"], max_episodes := 5 })) ∧
    (GraphitiBackend.parse_episodes_to_memories 0
        (emptyGraphitiService.get_episodes { group_ids := ["g"], max_episodes := 5 })).length ≤ 5 :=
  C7_amended_list_recent_delegates emptyForgetfulService [] 0 "g" 5 emptyGraphitiService
    rfl (by decide) (by decide) (by decide)

/-- C8 counterexample: a service whose query_memory response has 2 records
makes query with limit 1 return 2 memories — the adapter does not truncate to
the limit. -/
theorem C8_counterexample_query_exceeds_limit :
    (ForgetfulBackend.query svcTwoQueried [] 0 "authentication" "g" 1).1.length = 2 ∧
    ¬ ((ForgetfulBackend.query svcTwoQueried [] 0 "authentication" "g" 1).1.length ≤ 1) :=
  ⟨by decide, by decide⟩

/-- C8 amended: both query implementations forward the limit to the service
(k for Forgetful, max_nodes for Graphiti) and return one parsed Memory per raw
record; the length is at most limit exactly when the raw response has at most
limit records. -/
theorem C8_amended_query_delegates (svc : ForgetfulService) (cache : Cache) (now : Timestamp)
    (q group_id : String) (limit : Nat)
    (gsvc : GraphitiService) (hav : gsvc.mcpAvailable = true)
    (hflen : ((svc.query_memory (ForgetfulBackend.query_args svc cache q group_id
        limit)).memories.getD []).length ≤ limit)
    (hglen :
      ((gsvc.search_nodes { query := q, group_ids := [group_id], max_nodes := limit }).nodes.getD
        []).length ≤ limit) :
    (ForgetfulBackend.query svc cache now q group_id limit).1 =
      ForgetfulBackend.parse_forgetful_memories now
        (svc.query_memory (ForgetfulBackend.query_args svc cache q group_id limit)) ∧
    (ForgetfulBackend.query_args svc cache q group_id limit).k = limit ∧
    (ForgetfulBackend.query svc cache now q group_id limit).1.length ≤ limit ∧
    GraphitiBackend.query gsvc now q group_id limit =
      .ok (GraphitiBackend.parse_nodes_to_memories now
        (gsvc.search_nodes { query := q, group_ids := [group_id], max_nodes := limit })) ∧
    (GraphitiBackend.parse_nodes_to_memories now
        (gsvc.search_nodes
          { query := q, group_ids := [group_id], max_nodes := limit })).length ≤ limit := by
  refine ⟨rfl, rfl, ?_, ?_, ?_⟩
  · rw [ForgetfulBackend.query_eq]
    simpa [ForgetfulBackend.parse_forgetful_memories] using hflen
  · simp [GraphitiBackend.query, GraphitiBackend.check_mcp_available, hav]
  · simpa [GraphitiBackend.parse_nodes_to_memories] using hglen

/-- Witness for C8 amended: a 2-record response within a limit of 5. -/
theorem C8_witness :
    (ForgetfulBackend.query svcTwoQueried [] 0 "authentication" "g" 5).1 =
      ForgetfulBackend.parse_forgetful_memories 0
        (svcTwoQueried.query_memory
          (ForgetfulBackend.query_args svcTwoQueried [] "authentication" "g" 5)) ∧
    (ForgetfulBackend.query_args svcTwoQueried [] "authentication" "g" 5).k = 5 ∧
    (ForgetfulBackend.query svcTwoQueried [] 0 "authentication" "g" 5).1.length ≤ 5 ∧
    GraphitiBackend.query emptyGraphitiService 0 "authentication" "g" 5 =
      .ok (GraphitiBackend.parse_nodes_to_memories 0
        (emptyGraphitiService.search_nodes
          { query := "authentication", group_ids := ["g"], max_nodes := 5 })) ∧
    (GraphitiBackend.parse_nodes_to_memories 0
        (emptyGraphitiService.search_nodes
          { query := "authentication", group_ids := ["g"], max_nodes := 5 })).length ≤ 5 :=
  C8_amended_query_delegates svcTwoQueried [] 0 "authentication" "g" 5 emptyGraphitiService
    rfl (by decide) (by decide)

/-- C10: when the create response carries neither memory_id nor id (Forgetful)
and neither episode_id nor uuid (Graphiti), save does not fail and returns the
literal string unknown. -/
theorem C10_save_missing_id_returns_unknown (fsvc : ForgetfulService) (cache : Cache)
    (content group_id : String) (metadata : SaveMetadata)
    (gsvc : GraphitiService) (hav : gsvc.mcpAvailable = true)
    (hfm : (fsvc.create_memory (ForgetfulBackend.save_args fsvc cache content group_id
        metadata)).memory_id = none)
    (hfi : (fsvc.create_memory (ForgetfulBackend.save_args fsvc cache content group_id
        metadata)).id = none)
    (hge : (gsvc.add_memory (GraphitiBackend.save_args content group_id
        metadata)).episode_id = none)
    (hgu : (gsvc.add_memory (GraphitiBackend.save_args content group_id
        metadata)).uuid = none) :
    (ForgetfulBackend.save fsvc cache content group_id metadata).1 = "unknown" ∧
    GraphitiBackend.save gsvc content group_id metadata = .ok "unknown" := by
  constructor
  · rw [ForgetfulBackend.forgetful_save_eq]
    simp [hfm, hfi, Option.orElse]
  · rw [GraphitiBackend.graphiti_save_eq gsvc content group_id metadata hav]
    simp [hge, hgu, Option.orElse]

/-- Witness for C10 at concrete services whose create responses are empty. -/
theorem C10_witness :
    (ForgetfulBackend.save emptyForgetfulService [] "some note" "g" {}).1 = "unknown" ∧
    GraphitiBackend.save emptyGraphitiService "some note" "g" {} = .ok "unknown" :=
  C10_save_missing_id_returns_unknown emptyForgetfulService [] "some note" "g" {}
    emptyGraphitiService rfl rfl rfl rfl rfl

end ContextHub
